import Mathlib

/-!
Verification of the live-server static file server (src/live-server.py).

The script subclasses the standard library static file handler, overriding
`end_headers` to append three cache-disabling headers, changes the working
directory to the script's own directory, binds a TCP listener on port 8081
on all interfaces, schedules a one-shot 1-second timer that opens the
default browser at the root URL, and serves requests until interrupted,
at which point it prints a shutdown message and exits with status 0.

Pure parts (header injection, path resolution, request dispatch) are
embedded as executable functions; the process-level behaviour of
`__main__` is embedded as an event trace.
-/

/-- An HTTP response header: a name/value pair. -/
structure Header where
  name : String
  value : String
deriving DecidableEq, Repr

/-- The three cache-disabling headers added by `MyHTTPRequestHandler.end_headers`
(src/live-server.py lines 16-18), in the order they are sent. -/
def noCacheHeaders : List Header :=
  [⟨"Cache-Control", "no-cache, no-store, must-revalidate"⟩,
   ⟨"Pragma", "no-cache"⟩,
   ⟨"Expires", "0"⟩]

/-- Embedding of `MyHTTPRequestHandler.end_headers` (src/live-server.py
lines 15-19): given the headers already buffered for the response, it
appends the three no-cache headers and then finalizes the header block
via the superclass. Every response the handler sends is finalized through
this function. -/
def end_headers (buffered : List Header) : List Header :=
  buffered ++ noCacheHeaders

/-- An entry in the served filesystem subtree: a regular file carrying its
byte content and a readability flag, or a directory carrying its entry
names. -/
inductive Entry where
  | file (content : List Nat) (readable : Bool)
  | dir (entries : List String)
deriving DecidableEq, Repr

/-- The filesystem subtree rooted at the server's working directory,
as a finite association from relative component paths to entries. -/
abbrev FileSystem := List (List String × Entry)

/-- Look up a relative component path in the served subtree. -/
def fsLookup (fs : FileSystem) (p : List String) : Option Entry :=
  match fs with
  | [] => none
  | (q, e) :: rest => if q = p then some e else fsLookup rest p

/-- An HTTP response: status code, finalized header block, optional body. -/
structure Response where
  status : Nat
  headers : List Header
  body : Option (List Nat)
deriving DecidableEq, Repr

/-- A 200 response carrying the file bytes unchanged; headers are
finalized through `end_headers`. -/
def mkOk (content : List Nat) : Response :=
  { status := 200
    headers := end_headers [⟨"Content-Length", toString content.length⟩]
    body := some content }

/-- An error response (404, 403, 501, ...); headers are finalized through
`end_headers`. -/
def mkError (code : Nat) : Response :=
  { status := code
    headers := end_headers []
    body := none }

/-- A 301 redirect to the given location; headers are finalized through
`end_headers`. -/
def mkRedirect (location : String) : Response :=
  { status := 301
    headers := end_headers [⟨"Location", location⟩]
    body := none }

/-- Cut a character list at the first occurrence of any stop character
(used to drop the query and fragment parts of a request path). -/
def stripFrom (stops : List Char) : List Char → List Char
  | [] => []
  | c :: rest => if c ∈ stops then [] else c :: stripFrom stops rest

/-- Split a character list on a separator character into components. -/
def splitOnChar (sep : Char) : List Char → List (List Char)
  | [] => [[]]
  | c :: rest =>
    let r := splitOnChar sep rest
    if c = sep then [] :: r
    else
      match r with
      | [] => [[c]]
      | h :: t => (c :: h) :: t

/-- Modelled from the spec: the component-normalisation step of the
standard static file handler path translation (the handler class is
imported from the standard library and is not under src/). Per the
spec's "standard static-file-serving containment rules", empty and `.`
components are dropped and a `..` component pops the last kept component,
never escaping the root. `acc` holds the components kept so far, in
reverse order. -/
def resolveComponents : List String → List String → List String
  | acc, [] => acc.reverse
  | acc, c :: cs =>
    if c = "" ∨ c = "." then resolveComponents acc cs
    else if c = ".." then resolveComponents (acc.drop 1) cs
    else resolveComponents (c :: acc) cs

/-- Modelled from the spec: translation of a request path to a relative
component path under the root directory, per the spec's "resolve the
requested path against the working directory" under "standard
static-file-serving semantics". The query and fragment are dropped,
the path is split on `/`, and components are normalised so the result
never leaves the root. -/
def resolvePath (p : String) : List String :=
  resolveComponents [] ((splitOnChar '/' (stripFrom ['?', '#'] p.data)).map String.mk)

/-- Whether a request path ends with the path separator (a directory
request). -/
def endsWithSlash (p : String) : Bool :=
  match p.data.getLast? with
  | some c => c = '/'
  | none => false

/-- Bytes of the generated directory listing page for a directory's
entries (the spec only requires that a generated listing is served;
its exact format is not specified). -/
def listingBytes (entries : List String) : List Nat :=
  (List.intercalate ['\n'] (entries.map String.data)).map Char.toNat

/-- Modelled from the spec: serving a request whose path resolved to
`comps`, per "standard static-file-serving semantics" (the standard
handler is not under src/): a readable regular file is returned
unchanged with 200, an unreadable one gives 403, a missing path gives
404; a directory reached without a trailing slash redirects (301) to
the same path with `/` appended, and with a trailing slash serves the
directory's `index.html` when present, otherwise a generated listing.
`p` is the original request path, consulted only for its trailing slash
and as the redirect base. -/
def serveResolved (fs : FileSystem) (comps : List String) (p : String) : Response :=
  match fsLookup fs comps with
  | none => mkError 404
  | some (Entry.file content readable) =>
      if readable then mkOk content else mkError 403
  | some (Entry.dir entries) =>
      if endsWithSlash p then
        match fsLookup fs (comps ++ ["index.html"]) with
        | some (Entry.file c r) => if r then mkOk c else mkError 403
        | _ => mkOk (listingBytes entries)
      else mkRedirect (p ++ "/")

/-- Modelled from the spec: the head of the standard GET/HEAD handling —
resolve the request path against the root, then serve the resolved
entry. All filesystem access goes through the resolved component path. -/
def send_head (fs : FileSystem) (p : String) : Response :=
  serveResolved fs (resolvePath p) p

/-- Modelled from the spec: request dispatch of the handler class. The
class defines handlers for GET and HEAD only (HEAD sends the same
status and headers without a body); any other method is answered with
501 Unsupported method. Every branch finalizes its headers through the
overridden `end_headers`. -/
def handle_request (fs : FileSystem) (method path : String) : Response :=
  if method = "GET" then send_head fs path
  else if method = "HEAD" then
    { send_head fs path with body := none }
  else mkError 501

/-- A single HTTP request: method and path. -/
structure Request where
  method : String
  path : String
deriving DecidableEq, Repr

/-- Modelled from the spec: the sequential accept-and-serve loop. Each
request is answered in turn; request handling threads the filesystem
state through unchanged (the handler never writes), and an error
response to one request does not stop the loop. -/
def serverRun (fs : FileSystem) : List Request → List Response × FileSystem
  | [] => ([], fs)
  | r :: rs =>
    let resp := handle_request fs r.method r.path
    let rest := serverRun fs rs
    (resp :: rest.1, rest.2)

/-- The fixed port constant (src/live-server.py line 12). -/
def PORT : Nat := 8081

/-- Embedding of `open_browser` (src/live-server.py lines 21-22): the URL
the function opens in the default system browser. -/
def open_browser : String := "http://localhost:" ++ toString PORT

/-- Model of `os.path.abspath`: the path itself when absolute, otherwise
joined to the current working directory (normalisation of dot components
is irrelevant to the claims and omitted). -/
def abspath (cwd p : String) : String :=
  if p.startsWith ("/") then p else cwd ++ "/" ++ p

/-- Model of `os.path.dirname`: everything up to (excluding) the last
path separator. -/
def dirname (p : String) : String :=
  match (splitOnChar '/' p.data).dropLast with
  | [] => ""
  | parts => String.mk (List.intercalate ['/'] parts)

/-- The shutdown message printed on KeyboardInterrupt
(src/live-server.py line 38). -/
def shutdownMsg : String := "\n👋 Servidor detenido"

/-- An observable process-level event of `__main__`. -/
inductive MainEvent where
  | chdir (target : String)
  | bind (host : String) (port : Nat)
  | println (msg : String)
  | startTimer (delaySec : Nat) (url : String)
  | cancelTimer
  | serveLoop
  | exit (code : Nat)
deriving DecidableEq, Repr

/-- The events of `__main__` up to entering `serve_forever`
(src/live-server.py lines 24-36): change directory to the script's own
directory, bind the wildcard address on the fixed port, print the three
startup messages, start the one-shot 1-second browser timer, enter the
accept loop. -/
def startupEvents (cwd script : String) : List MainEvent :=
  [MainEvent.chdir (dirname (abspath cwd script)),
   MainEvent.bind ("") PORT,
   MainEvent.println ("🚀 Servidor iniciado en http://localhost:" ++ toString PORT),
   MainEvent.println ("📱 Vista previa en tiempo real activada"),
   MainEvent.println ("🛑 Presiona Ctrl+C para detener"),
   MainEvent.startTimer 1 open_browser,
   MainEvent.serveLoop]

/-- The full event trace of one process run (src/live-server.py
lines 24-39). `cwd` is the invocation directory, `script` the path of
the script file; `argv` and `env` are the command-line arguments and
environment, which the program never reads; `interrupted` tells whether
an interrupt signal arrives while serving, in which case the loop is
left, the shutdown message is printed and the process exits with
status 0. -/
def mainTrace (cwd script : String) (argv : List String)
    (env : List (String × String)) (interrupted : Bool) : List MainEvent :=
  startupEvents cwd script ++
    if interrupted then [MainEvent.println shutdownMsg, MainEvent.exit 0] else []

/-- The timer-start events of a trace. -/
def timerEvents (t : List MainEvent) : List MainEvent :=
  t.filter fun e =>
    match e with
    | MainEvent.startTimer _ _ => true
    | _ => false

/-- The bind events of a trace. -/
def bindEvents (t : List MainEvent) : List MainEvent :=
  t.filter fun e =>
    match e with
    | MainEvent.bind _ _ => true
    | _ => false

-- ## Helper lemmas

/-- Every header block produced by the handler is finalized through
`end_headers`, hence carries the three no-cache headers. -/
theorem mem_end_headers (h : Header) (hh : h ∈ noCacheHeaders) (l : List Header) :
    h ∈ end_headers l := by
  simp [end_headers]
  exact Or.inr hh

theorem serveResolved_headers (fs : FileSystem) (comps : List String) (p : String) :
    ∃ b, (serveResolved fs comps p).headers = end_headers b := by
  unfold serveResolved mkOk mkError mkRedirect
  repeat' split
  all_goals exact ⟨_, rfl⟩

theorem handle_request_headers (fs : FileSystem) (m p : String) :
    ∃ b, (handle_request fs m p).headers = end_headers b := by
  unfold handle_request send_head mkError
  repeat' split
  all_goals first
    | exact ⟨_, rfl⟩
    | exact serveResolved_headers fs (resolvePath p) p

-- ## Claim theorems

/-- C1: Every HTTP response the server sends — success, redirect or
error, to any method — carries the headers
`Cache-Control: no-cache, no-store, must-revalidate`, `Pragma: no-cache`
and `Expires: 0` with exactly these values, because every response is
finalized through the overridden `end_headers`. -/
theorem C1_every_response_has_no_cache_headers
    (fs : FileSystem) (m p : String) :
    (⟨"Cache-Control", "no-cache, no-store, must-revalidate"⟩ : Header)
        ∈ (handle_request fs m p).headers ∧
    (⟨"Pragma", "no-cache"⟩ : Header) ∈ (handle_request fs m p).headers ∧
    (⟨"Expires", "0"⟩ : Header) ∈ (handle_request fs m p).headers := by
  obtain ⟨b, hb⟩ := handle_request_headers fs m p
  rw [hb]
  refine ⟨?_, ?_, ?_⟩ <;>
    · apply mem_end_headers
      simp [noCacheHeaders]

/-- The accept loop answers every request: one response per request,
error responses included, so a 404 or 403 on one request never stops
the server. -/
theorem serverRun_length (fs : FileSystem) (reqs : List Request) :
    ((serverRun fs reqs).1).length = reqs.length := by
  induction reqs with
  | nil => rfl
  | cons r rs ih => simp [serverRun, ih]

/-- Request handling threads the filesystem state through unchanged:
the handler never writes. -/
theorem serverRun_fs (fs : FileSystem) (reqs : List Request) :
    (serverRun fs reqs).2 = fs := by
  induction reqs with
  | nil => rfl
  | cons r rs ih => simp [serverRun, ih]

/-- Path normalisation keeps only clean components: starting from an
accumulator of clean components, every component of the result is
non-empty and is neither `.` nor `..`, so the resolved path never
leaves the root. -/
theorem resolveComponents_clean (cs acc : List String)
    (hacc : ∀ a ∈ acc, a ≠ "" ∧ a ≠ "." ∧ a ≠ "..") :
    ∀ c ∈ resolveComponents acc cs, c ≠ "" ∧ c ≠ "." ∧ c ≠ ".." := by
  induction cs generalizing acc with
  | nil =>
    intro c hc
    simp only [resolveComponents, List.mem_reverse] at hc
    exact hacc c hc
  | cons d cs ih =>
    intro c hc
    simp only [resolveComponents] at hc
    split at hc
    · exact ih acc hacc c hc
    · split at hc
      · refine ih (acc.drop 1) ?_ c hc
        intro a ha
        exact hacc a (List.drop_subset 1 acc ha)
      · refine ih (d :: acc) ?_ c hc
        intro a ha
        rcases List.mem_cons.mp ha with h | h
        · subst h
          rename_i hne1 hne2
          push_neg at hne1
          exact ⟨hne1.1, hne1.2, hne2⟩
        · exact hacc a h

/-- C2: a GET request for a path that resolves to a readable regular
file under the root returns status 200 with the file's bytes unchanged
as the body. -/
theorem C2_get_readable_file_returns_200_bytes
    (fs : FileSystem) (p : String) (content : List Nat)
    (h : fsLookup fs (resolvePath p) = some (Entry.file content true)) :
    (handle_request fs ("GET") p).status = 200 ∧
    (handle_request fs ("GET") p).body = some content := by
  simp [handle_request, send_head, serveResolved, h, mkOk]

theorem C2_witness :
    (handle_request [(["index.html"], Entry.file [104, 105] true)]
        ("GET") ("/index.html")).status = 200 ∧
    (handle_request [(["index.html"], Entry.file [104, 105] true)]
        ("GET") ("/index.html")).body = some [104, 105] :=
  C2_get_readable_file_returns_200_bytes _ _ _ (by rfl)

/-- C3: a GET request whose path resolves to no entry is answered with
404, one whose path resolves to an unreadable regular file is answered
with 403, and the serve loop answers every request in its queue — the
errors are per-request and non-fatal to the server. -/
theorem C3_missing_404_unreadable_403_nonfatal
    (fs : FileSystem) (p q : String) (c : List Nat)
    (h404 : fsLookup fs (resolvePath p) = none)
    (h403 : fsLookup fs (resolvePath q) = some (Entry.file c false)) :
    (handle_request fs ("GET") p).status = 404 ∧
    (handle_request fs ("GET") q).status = 403 ∧
    ∀ reqs : List Request, ((serverRun fs reqs).1).length = reqs.length := by
  refine ⟨?_, ?_, fun reqs => serverRun_length fs reqs⟩
  · simp [handle_request, send_head, serveResolved, h404, mkError]
  · simp [handle_request, send_head, serveResolved, h403, mkError]

theorem C3_witness :
    (handle_request [(["secret.txt"], Entry.file [1] false)]
        ("GET") ("/missing.txt")).status = 404 ∧
    (handle_request [(["secret.txt"], Entry.file [1] false)]
        ("GET") ("/secret.txt")).status = 403 ∧
    ((serverRun [(["secret.txt"], Entry.file [1] false)]
        [⟨"GET", "/missing.txt"⟩, ⟨"GET", "/secret.txt"⟩]).1).length = 2 := by
  have h := C3_missing_404_unreadable_403_nonfatal
    [(["secret.txt"], Entry.file [1] false)]
    ("/missing.txt") ("/secret.txt") [1] (by rfl) (by rfl)
  exact ⟨h.1, h.2.1, h.2.2 _⟩

/-- C4: path traversal is contained. Every component of a resolved
request path is a real name — never empty, `.` or `..` — so the
translated path always stays under the root directory, and all serving
goes through this resolved path: no file outside the root is ever
served. -/
theorem C4_traversal_contained (fs : FileSystem) (p c : String)
    (hc : c ∈ resolvePath p) :
    (c ≠ "" ∧ c ≠ "." ∧ c ≠ "..") ∧
    send_head fs p = serveResolved fs (resolvePath p) p := by
  refine ⟨?_, rfl⟩
  simp only [resolvePath] at hc
  exact resolveComponents_clean _ [] (by simp) c hc

theorem C4_witness :
    ("etc" ∈ resolvePath ("/../../etc/passwd")) ∧
    (("etc" : String) ≠ "" ∧ ("etc" : String) ≠ "." ∧ ("etc" : String) ≠ "..") ∧
    send_head [] ("/../../etc/passwd") =
      serveResolved [] (resolvePath ("/../../etc/passwd")) ("/../../etc/passwd") := by
  have h := C4_traversal_contained [] ("/../../etc/passwd") ("etc") (by decide)
  exact ⟨by decide, h.1, h.2⟩

/-- C5: when an interrupt arrives while serving, the accept loop is
left and the trace ends with exactly the shutdown message print
followed by exit with status code 0. -/
theorem C5_interrupt_exit0_message (cwd script : String) (argv : List String)
    (env : List (String × String)) :
    ∃ pre, mainTrace cwd script argv env true =
        pre ++ [MainEvent.println shutdownMsg, MainEvent.exit 0] ∧
      MainEvent.serveLoop ∈ pre := by
  refine ⟨startupEvents cwd script, rfl, ?_⟩
  simp [startupEvents]

/-- C6: whether or not the run is interrupted, exactly one timer is
started, with a 1-second delay, opening the browser at the server's
root URL; no timer is ever cancelled, and the URL is the root URL for
the fixed port. -/
theorem C6_browser_once_after_1s (cwd script : String) (argv : List String)
    (env : List (String × String)) (interrupted : Bool) :
    timerEvents (mainTrace cwd script argv env interrupted) =
        [MainEvent.startTimer 1 open_browser] ∧
    MainEvent.cancelTimer ∉ mainTrace cwd script argv env interrupted ∧
    open_browser = "http://localhost:8081" := by
  refine ⟨?_, ?_, rfl⟩
  · cases interrupted <;> rfl
  · cases interrupted <;> simp [mainTrace, startupEvents]

/-- C7: every run binds exactly one listener, on the wildcard address
and the fixed port 8081, and the trace is independent of the
command-line arguments and the environment, which the program never
reads. -/
theorem C7_fixed_port_8081_wildcard (cwd script : String)
    (argv argv2 : List String) (env env2 : List (String × String))
    (interrupted : Bool) :
    bindEvents (mainTrace cwd script argv env interrupted) =
        [MainEvent.bind ("") 8081] ∧
    mainTrace cwd script argv env interrupted =
        mainTrace cwd script argv2 env2 interrupted ∧
    PORT = 8081 := by
  refine ⟨?_, rfl, rfl⟩
  cases interrupted <;> rfl

/-- C8: the first event of every run is the change of working directory
to the directory containing the script, and the listener bind comes
only after it — so the served root is the script's own directory
regardless of the invocation directory. -/
theorem C8_chdir_before_bind (cwd script : String) (argv : List String)
    (env : List (String × String)) (interrupted : Bool) :
    ∃ rest, mainTrace cwd script argv env interrupted =
      MainEvent.chdir (dirname (abspath cwd script)) ::
        MainEvent.bind ("") PORT :: rest :=
  ⟨_, rfl⟩

/-- C9: a GET for an existing directory without a trailing slash is
answered with a 301 redirect to the same path with `/` appended; with
a trailing slash, the directory's readable `index.html` is served when
present, and a generated listing of the directory otherwise. -/
theorem C9_directory_redirect_index_listing (fs : FileSystem) (p : String)
    (entries : List String)
    (hdir : fsLookup fs (resolvePath p) = some (Entry.dir entries)) :
    (endsWithSlash p = false →
      (handle_request fs ("GET") p).status = 301 ∧
      (⟨"Location", p ++ "/"⟩ : Header) ∈ (handle_request fs ("GET") p).headers) ∧
    (endsWithSlash p = true →
      (∀ c, fsLookup fs (resolvePath p ++ ["index.html"]) =
          some (Entry.file c true) →
        (handle_request fs ("GET") p).status = 200 ∧
        (handle_request fs ("GET") p).body = some c) ∧
      (fsLookup fs (resolvePath p ++ ["index.html"]) = none →
        (handle_request fs ("GET") p).status = 200 ∧
        (handle_request fs ("GET") p).body = some (listingBytes entries))) := by
  refine ⟨fun hslash => ?_, fun hslash => ⟨fun c hidx => ?_, fun hidx => ?_⟩⟩
  · simp [handle_request, send_head, serveResolved, hdir, hslash, mkRedirect,
      end_headers, noCacheHeaders]
  · simp [handle_request, send_head, serveResolved, hdir, hslash, hidx, mkOk]
  · simp [handle_request, send_head, serveResolved, hdir, hslash, hidx, mkOk]

/-- A small served subtree with a directory carrying an index page and
one without, used to instantiate the directory-serving claim. -/
def fsC9 : FileSystem :=
  [(["d"], Entry.dir ["index.html"]),
   (["d", "index.html"], Entry.file [97] true),
   (["e"], Entry.dir ["y.txt"])]

theorem C9_witness :
    ((handle_request fsC9 ("GET") ("/d")).status = 301 ∧
      (⟨"Location", "/d/"⟩ : Header) ∈ (handle_request fsC9 ("GET") ("/d")).headers) ∧
    ((handle_request fsC9 ("GET") ("/d/")).status = 200 ∧
      (handle_request fsC9 ("GET") ("/d/")).body = some [97]) ∧
    ((handle_request fsC9 ("GET") ("/e/")).status = 200 ∧
      (handle_request fsC9 ("GET") ("/e/")).body = some (listingBytes ["y.txt"])) := by
  have h1 := (C9_directory_redirect_index_listing fsC9 ("/d") ["index.html"]
    (by rfl)).1 (by rfl)
  have h2 := ((C9_directory_redirect_index_listing fsC9 ("/d/") ["index.html"]
    (by rfl)).2 (by rfl)).1 [97] (by rfl)
  have h3 := ((C9_directory_redirect_index_listing fsC9 ("/e/") ["y.txt"]
    (by rfl)).2 (by rfl)).2 (by rfl)
  exact ⟨h1, h2, h3⟩

/-- C10: a request with any method other than GET and HEAD is answered
with 501 Unsupported method, and request handling leaves the filesystem
unchanged — the server never writes. -/
theorem C10_unknown_method_501_no_writes (fs : FileSystem) (m p : String)
    (h1 : m ≠ "GET") (h2 : m ≠ "HEAD") :
    (handle_request fs m p).status = 501 ∧
    ∀ reqs : List Request, (serverRun fs reqs).2 = fs := by
  refine ⟨?_, fun reqs => serverRun_fs fs reqs⟩
  simp [handle_request, h1, h2, mkError]

theorem C10_witness :
    (handle_request [] ("POST") ("/")).status = 501 ∧
    (serverRun [] [⟨"POST", "/"⟩]).2 = ([] : FileSystem) := by
  have h := C10_unknown_method_501_no_writes [] ("POST") ("/")
    (by decide) (by decide)
  exact ⟨h.1, h.2 _⟩
